import Mathlib

/-!
Verification of the lox tree-walking interpreter (crates lox-syntax,
lox-interpreter, lox, lox-std) against its natural-language specification.

The Rust sources are shallowly embedded:
* `Rc<RefCell<Environment>>` cells become addresses (`Nat`) into an
  append-only heap (`List Env`) carried in the interpreter state; cloning an
  environment allocates a fresh address whose record copies the `values` map
  and shares the `enclosing` address, exactly as `#[derive(Clone)]` does for
  a `HashMap` paired with an `Option<Rc<...>>`.
* Instance field tables (`Rc<RefCell<HashMap<String, Value>>>`) become
  addresses into a fields heap; an `Instance` value carries its class data
  and its fields address, so `Instance::clone` (which shares the fields
  `Rc`) is the identity on the observable data.
* `f32` numbers are abstracted as `Int`: no claim under verification
  depends on floating-point rounding, width or NaN behaviour.
* Rust `HashMap` becomes an association list with insert-or-overwrite;
  the only place iteration order of a `HashMap` is observable
  (`Resolver::end_scope`) is not exercised with more than one unused
  variable by any claim.
* Panics (`unwrap`, `expect`, explicit `panic!`, `usize` underflow) and
  fuel exhaustion are both modelled as `none`: the computation produces no
  `ResultExec` value at all, which is distinct from every user-facing error.
Statement/expression evaluation is fuel-indexed because Lox programs can
diverge; all concrete claims are evaluated with ample fuel.
-/

namespace Lox

/-- `TokenType` from lox-syntax/src/tokenizer/token.rs. -/
inductive TokenType where
  | LEFT_PAREN | RIGHT_PAREN | LEFT_BRACE | RIGHT_BRACE
  | COMMA | DOT | MINUS | PLUS | SEMICOLON | SLASH | STAR
  | BANG | BANG_EQUAL | EQUAL | EQUAL_EQUAL
  | GREATER | GREATER_EQUAL | LESS | LESS_EQUAL
  | IDENTIFIER | STRING | NUMBER
  | AND | BREAK | CLASS | ELSE | FALSE | FUN | FOR | IF | NIL | OR
  | PRINT | RETURN | SUPER | THIS | TRUE | VAR | WHILE
  | EOF | INVALID
deriving DecidableEq, Repr

/-- `Literal` from token.rs; `Number(f32)` is abstracted as `Int`. -/
inductive Literal where
  | str (s : String)
  | num (n : Int)
  | bool (b : Bool)
  | null
deriving DecidableEq, Repr

/-- `Token` from token.rs. The `line` field is used only for diagnostics and
is omitted; `PartialEq for Token` in the source also ignores it, so derived
equality coincides with the source's `==`. -/
structure Token where
  tokenType : TokenType
  literal : Option Literal
deriving DecidableEq, Repr

/-- `Display for Literal` (token.rs): the text a literal renders as. -/
def litString : Literal → String
  | .str s => s
  | .num n => toString n
  | .bool b => if b then "true" else "false"
  | .null => "null"

/-- `ToString for Token` (token.rs): `this`/`super` for the keyword tokens,
otherwise the literal's rendering, or `""` when there is no literal. -/
def Token.to_string (t : Token) : String :=
  if t.tokenType = TokenType.THIS then "this"
  else if t.tokenType = TokenType.SUPER then "super"
  else match t.literal with
    | some l => litString l
    | none => ""

/-- An identifier token carrying its name, as the lexer produces it. -/
def identTok (s : String) : Token :=
  { tokenType := TokenType.IDENTIFIER, literal := some (Literal.str s) }

mutual
/-- `Expr` from lox-syntax/src/parser/ast.rs, including the `Lambda` and
`Comma` variants that interpreter.rs matches (the checked-in ast.rs predates
them; the parser and interpreter agree on their shape). -/
inductive Expr where
  | Assign (name : Token) (value : Expr)
  | Binary (left : Expr) (operator : Token) (right : Expr)
  | Call (callee : Expr) (paren : Token) (arguments : List Expr)
  | Get (object : Expr) (name : Token)
  | Grouping (expression : Expr)
  | Literal (value : Literal)
  | Logical (left : Expr) (operator : Token) (right : Expr)
  | Set (object : Expr) (name : Token) (value : Expr)
  | Super (keyword : Token) (method : Token)
  | This (keyword : Token)
  | Unary (operator : Token) (right : Expr)
  | Variable (name : Token)
  | Lambda (params : List Token) (body : List Stmt)
  | Comma (left : Expr) (right : Expr)

/-- `Stmt` from ast.rs, including the `Break` variant that the parser
constructs (`parser.rs` `break_stmt`) and the interpreter matches. -/
inductive Stmt where
  | Block (statements : List Stmt)
  | Class (name : Token) (superclass : Option Expr) (methods : List Stmt)
  | Expression (expression : Expr)
  | Function (name : Token) (params : List Token) (body : List Stmt)
  | If (condition : Expr) (thenBranch : Stmt) (elseBranch : Option Stmt)
  | Print (expression : Expr)
  | Return (keyword : Token) (value : Option Expr)
  | Var (name : Token) (initializer : Option Expr)
  | While (condition : Expr) (body : Stmt)
  | Break
end

mutual
/-- `Value` from lox-interpreter/src/value.rs. `Instance` carries its class
data and the address of its shared mutable field table; `Instance::clone`
shares the fields `Rc`, so a clone is indistinguishable here. -/
inductive Value where
  | Number (n : Int)
  | String (s : String)
  | Bool (b : Bool)
  | Null
  | Callable (f : Function)
  | Class (c : ClassData)
  | Instance (klass : ClassData) (fields : Nat)

/-- `Function` from lox-interpreter/src/function.rs, with the
`is_initializer` field that interpreter.rs stores at construction sites.
A `Native` body is identified by a host-function id (`0` = `clock`). -/
inductive Function where
  | Native (arity : Nat) (body : Nat)
  | Custom (params : List Token) (body : List Stmt) (closure : Nat)
      (is_initializer : Bool)

/-- `Class` from lox-interpreter/src/class.rs: name, optional superclass,
method table. -/
inductive ClassData where
  | mk (name : String) (superclass : Option ClassData)
      (methods : List (String × Function))
end

def ClassData.name : ClassData → String
  | .mk n _ _ => n

def ClassData.superclass : ClassData → Option ClassData
  | .mk _ s _ => s

def ClassData.methods : ClassData → List (String × Function)
  | .mk _ _ m => m

/-- `HashMap::get` as association-list lookup. -/
def alookup {α : Type} : List (String × α) → String → Option α
  | [], _ => none
  | (k, v) :: rest, key => if k = key then some v else alookup rest key

/-- `HashMap::insert`: overwrite the binding in place if the key is present,
otherwise add it. -/
def ainsert {α : Type} : List (String × α) → String → α → List (String × α)
  | [], key, v => [(key, v)]
  | (k, w) :: rest, key, v =>
    if k = key then (key, v) :: rest else (k, w) :: ainsert rest key v

/-- `ErrorKind` from lox-interpreter/src/errors.rs (each variant carries its
message payload). -/
inductive ErrorK where
  | UnrecognizedExpr (d : String)
  | UnrecognizedStmt (d : String)
  | UnrecognizedOpt (d : String)
  | UnexpectedExpr (d : String)
  | UnexpectedStmt (d : String)
  | UnexpectedOpt (d : String)
  | WrongValueType (d : String)
  | NotCallable (d : String)
  | UnusedVariable (d : String)
  | InvalidContext (d : String)
  | UndefinedVar (d : String)

/-- `RuntimeControl` from errors.rs: the two non-local control signals. -/
inductive RuntimeControl where
  | Break
  | Return (v : Value)

/-- `ControlFlow` from errors.rs: genuine errors and control signals share
one propagation channel, tagged distinctly. -/
inductive ControlFlow where
  | Error (e : ErrorK)
  | Runtime (c : RuntimeControl)

/-- `ResultExec<T>` from errors.rs. -/
abbrev ResultExec (α : Type) := Except ControlFlow α

/-- `Environment` from lox-interpreter/src/environment.rs: a name→value map
plus an optional enclosing environment (an address into the heap). -/
structure Env where
  values : List (String × Value)
  enclosing : Option Nat

/-- `Environment::define`: always succeeds, shadows in the same scope. -/
def Env.define (e : Env) (name : String) (v : Value) : Env :=
  { e with values := ainsert e.values name v }

/-- `Environment::get`: name-based search up the parent chain, undefined at
the root. Fueled; on any reachable (acyclic) heap the chain is shorter than
the heap, so callers pass `envs.length + 1`. -/
def envGetFuel (envs : List Env) : Nat → Nat → String → Option (ResultExec Value)
  | 0, _, _ => none
  | fuel + 1, addr, name =>
    match envs[addr]? with
    | none => none
    | some e =>
      match alookup e.values name with
      | some v => some (Except.ok v)
      | none =>
        match e.enclosing with
        | some p => envGetFuel envs fuel p name
        | none =>
          some (Except.error (ControlFlow.Error
            (ErrorK.UndefinedVar ("Undefined variable " ++ name ++ "."))))

def envGet (envs : List Env) (addr : Nat) (name : String) :
    Option (ResultExec Value) :=
  envGetFuel envs (envs.length + 1) addr name

/-- `Environment::assign`: chain search requiring the name to exist; never
implicitly declares. Fueled like `envGet`. -/
def envAssignFuel (envs : List Env) :
    Nat → Nat → String → Value → Option (List Env × ResultExec Unit)
  | 0, _, _, _ => none
  | fuel + 1, addr, name, v =>
    match envs[addr]? with
    | none => none
    | some e =>
      if (alookup e.values name).isSome then
        some (envs.set addr { e with values := ainsert e.values name v },
          Except.ok ())
      else
        match e.enclosing with
        | some p => envAssignFuel envs fuel p name v
        | none =>
          some (envs, Except.error (ControlFlow.Error
            (ErrorK.UndefinedVar ("Undefined variable " ++ name ++ "."))))

def envAssign (envs : List Env) (addr : Nat) (name : String) (v : Value) :
    Option (List Env × ResultExec Unit) :=
  envAssignFuel envs (envs.length + 1) addr name v

/-- The allocation performed by the first line of `Environment::ancestor`:
`Rc::new(RefCell::new((*self).clone()))` — a fresh cell holding a copy of
this scope's `values` and sharing its `enclosing` link. -/
def cloneAlloc (envs : List Env) (addr : Nat) : Option (List Env × Nat) :=
  match envs[addr]? with
  | none => none
  | some e => some (envs ++ [e], envs.length)

/-- The `for _ in 0..distance` walk of `Environment::ancestor`: follow
`enclosing` exactly `distance` times, panicking (`none`) when the chain is
shorter. -/
def ancestorWalk (envs : List Env) : Nat → Nat → Option Nat
  | 0, addr => some addr
  | d + 1, addr =>
    match envs[addr]? with
    | none => none
    | some e =>
      match e.enclosing with
      | some enc => ancestorWalk envs d enc
      | none => none

/-- `Environment::ancestor`: clone self into a fresh cell, then walk
`distance` parent links from the clone. -/
def ancestor (envs : List Env) (addr distance : Nat) :
    Option (List Env × Nat) :=
  match cloneAlloc envs addr with
  | none => none
  | some (envs', start) =>
    match ancestorWalk envs' distance start with
    | none => none
    | some a => some (envs', a)

/-- `Environment::get_at`: `ancestor`, then direct lookup in that scope. -/
def getAt (envs : List Env) (addr distance : Nat) (name : String) :
    Option (List Env × ResultExec Value) :=
  match ancestor envs addr distance with
  | none => none
  | some (envs', a) =>
    match envs'[a]? with
    | none => none
    | some e =>
      match alookup e.values name with
      | some v => some (envs', Except.ok v)
      | none =>
        some (envs', Except.error (ControlFlow.Error
          (ErrorK.UndefinedVar ("Undefined variable " ++ name ++ "."))))

/-- `Environment::assign_at`: `ancestor`, then insert into that scope. -/
def assignAt (envs : List Env) (addr distance : Nat) (name : String)
    (v : Value) : Option (List Env) :=
  match ancestor envs addr distance with
  | none => none
  | some (envs', a) =>
    match envs'[a]? with
    | none => none
    | some e =>
      some (envs'.set a { e with values := ainsert e.values name v })

/-- `Interpreter::is_truthy`: `Null` and `false` are falsy, all else truthy. -/
def is_truthy : Value → Bool
  | Value.Null => false
  | Value.Bool b => b
  | _ => true

/-- `Interpreter::is_equal` (interpreter.rs lines 365–374): structural on
primitives, `Null` equals only `Null`, and the catch-all arm returns `false`
for everything else — including a `Class`, `Instance` or `Callable` compared
with itself. -/
def is_equal : Value → Value → Bool
  | Value.Null, Value.Null => true
  | Value.Null, _ => false
  | _, Value.Null => false
  | Value.Bool a, Value.Bool b => a == b
  | Value.Number a, Value.Number b => a == b
  | Value.String a, Value.String b => a == b
  | _, _ => false

/-- `Interpreter::check_number_operands`. -/
def check_number_operands (l r : Value) : ResultExec (Int × Int) :=
  match l, r with
  | Value.Number a, Value.Number b => Except.ok (a, b)
  | _, _ =>
    Except.error (ControlFlow.Error
      (ErrorK.WrongValueType "Both operands must be a number."))

/-- `Interpreter::check_number_operand`. -/
def check_number_operand (v : Value) : ResultExec Int :=
  match v with
  | Value.Number n => Except.ok n
  | _ =>
    Except.error (ControlFlow.Error
      (ErrorK.WrongValueType "Operand must be a number."))

/-- `From<Literal> for Value` (value.rs). -/
def Value.ofLiteral : Literal → Value
  | Literal.num n => Value.Number n
  | Literal.bool b => Value.Bool b
  | Literal.str s => Value.String s
  | Literal.null => Value.Null

/-- `Class::find_method`: own table first, then the superclass chain. -/
def findMethod : ClassData → String → Option Function
  | ClassData.mk _ sup methods, n =>
    match alookup methods n with
    | some f => some f
    | none =>
      match sup with
      | some s => findMethod s n
      | none => none

/-- `Function::arity` (function.rs). -/
def Function.arity : Function → Nat
  | Function.Native a _ => a
  | Function.Custom params _ _ _ => params.length

/-- `impl LoxCallable for Class`, `arity`: the arity of `init` found by
`find_method`, or 0 when there is none. -/
def classArity (c : ClassData) : Nat :=
  match findMethod c "init" with
  | some init => init.arity
  | none => 0

/-- `Class::new`: the superclass value, when present, must be a `Class`
(anything else panics). -/
def classNew (name : String) (superclassValue : Option Value)
    (methods : List (String × Function)) : Option ClassData :=
  match superclassValue with
  | none => some (ClassData.mk name none methods)
  | some (Value.Class c) => some (ClassData.mk name (some c) methods)
  | some _ => none

/-- The interpreter state (`Interpreter` in interpreter.rs) together with the
heaps standing in for the `Rc<RefCell<...>>` graph and the `print` side
channel. `locals` is the resolution table filled by `Interpreter::resolve`. -/
structure InterpState where
  envs : List Env
  fieldsHeap : List (List (String × Value))
  environment : Nat
  globals : Nat
  locals : List (String × Nat)
  output : List Value

/-- Define a name in the environment at address `addr`
(`self.environment.borrow_mut().define(...)` at the given cell). -/
def stDefineAt (st : InterpState) (addr : Nat) (name : String) (v : Value) :
    Option InterpState :=
  match st.envs[addr]? with
  | none => none
  | some e => some { st with envs := st.envs.set addr (e.define name v) }

/-- Define a name in the current environment. -/
def stDefine (st : InterpState) (name : String) (v : Value) :
    Option InterpState :=
  stDefineAt st st.environment name v

/-- `Interpreter::look_up_var`: distance-based lookup on the current
environment when the resolution table has an entry for the name, otherwise a
name-based lookup in the global environment. -/
def lookUpVar (st : InterpState) (name : Token) :
    Option (InterpState × ResultExec Value) :=
  match alookup st.locals name.to_string with
  | some d =>
    match getAt st.envs st.environment d name.to_string with
    | none => none
    | some (envs, r) => some ({ st with envs := envs }, r)
  | none =>
    match envGet st.envs st.globals name.to_string with
    | none => none
    | some r => some (st, r)

/-- `Function::bind`: only a `Custom` function can be bound; the bound copy
captures a fresh one-binding environment defining `this`, wrapped around the
original closure environment. -/
def bindFunction (st : InterpState) (f : Function) (instVal : Value) :
    Option (InterpState × Function) :=
  match f with
  | Function.Custom params body closure isInit =>
    some ({ st with envs :=
        st.envs ++ [{ values := ainsert [] "this" instVal,
                      enclosing := some closure }] },
      Function.Custom params body st.envs.length isInit)
  | Function.Native _ _ => none

/-- Host implementations of native functions; `clock` (id 0) returns the
wall-clock time, whose actual value is irrelevant to every claim, so it is
fixed at 0 here. -/
def nativeImpl (_id : Nat) (_args : List Value) : Value :=
  Value.Number 0

/-- The parameter-binding loop of `Function::call`: `params.iter()
.zip(arguments.iter())` silently stops at the shorter list; a parameter
token with no literal panics (`unwrap`). -/
def bindParamsGo (acc : List (String × Value)) :
    List (Token × Value) → Option (List (String × Value))
  | [] => some acc
  | (p, v) :: rest =>
    match p.literal with
    | none => none
    | some l => bindParamsGo (ainsert acc (litString l) v) rest

def bindParams (params : List Token) (args : List Value) :
    Option (List (String × Value)) :=
  bindParamsGo [] (params.zip args)

/-- `Instance::get`: own fields first; on miss, a class method is bound to
the instance; absence of both (or a failed bind) is an undefined property. -/
def instanceGet (st : InterpState) (klass : ClassData) (fieldsAddr : Nat)
    (name : Token) : Option (InterpState × ResultExec Value) :=
  match st.fieldsHeap[fieldsAddr]? with
  | none => none
  | some fields =>
    match alookup fields name.to_string with
    | some v => some (st, Except.ok v)
    | none =>
      match findMethod klass name.to_string with
      | some m =>
        match bindFunction st m (Value.Instance klass fieldsAddr) with
        | some (st', bound) => some (st', Except.ok (Value.Callable bound))
        | none =>
          some (st, Except.error (ControlFlow.Error (ErrorK.UndefinedVar
            ("Undefined property " ++ name.to_string ++ "."))))
      | none =>
        some (st, Except.error (ControlFlow.Error (ErrorK.UndefinedVar
          ("Undefined property " ++ name.to_string ++ "."))))

/-- `Instance::set`: unconditional field insert. -/
def instanceSet (st : InterpState) (fieldsAddr : Nat) (name : Token)
    (v : Value) : Option InterpState :=
  match st.fieldsHeap[fieldsAddr]? with
  | none => none
  | some fields =>
    some { st with fieldsHeap :=
      st.fieldsHeap.set fieldsAddr (ainsert fields name.to_string v) }

/-- The `?` operator on a `ResultExec` in state-passing form. -/
def bindE {α β : Type} (r : Option (InterpState × ResultExec α))
    (k : InterpState → α → Option (InterpState × ResultExec β)) :
    Option (InterpState × ResultExec β) :=
  match r with
  | none => none
  | some (st, Except.error e) => some (st, Except.error e)
  | some (st, Except.ok v) => k st v

/-- `Interpreter::visit_binary_expr` after both operands are evaluated. -/
def visitBinary (l : Value) (op : Token) (r : Value) : ResultExec Value :=
  match op.tokenType with
  | TokenType.MINUS =>
    match check_number_operands l r with
    | Except.error cf => Except.error cf
    | Except.ok (a, b) => Except.ok (Value.Number (a - b))
  | TokenType.SLASH =>
    match check_number_operands l r with
    | Except.error cf => Except.error cf
    | Except.ok (a, b) => Except.ok (Value.Number (a / b))
  | TokenType.STAR =>
    match check_number_operands l r with
    | Except.error cf => Except.error cf
    | Except.ok (a, b) => Except.ok (Value.Number (a * b))
  | TokenType.PLUS =>
    match l, r with
    | Value.Number a, Value.Number b => Except.ok (Value.Number (a + b))
    | Value.String a, Value.String b => Except.ok (Value.String (a ++ b))
    | _, _ =>
      Except.error (ControlFlow.Error
        (ErrorK.WrongValueType "Operands must be two numbers or two strings."))
  | TokenType.GREATER =>
    match check_number_operands l r with
    | Except.error cf => Except.error cf
    | Except.ok (a, b) => Except.ok (Value.Bool (decide (a > b)))
  | TokenType.GREATER_EQUAL =>
    match check_number_operands l r with
    | Except.error cf => Except.error cf
    | Except.ok (a, b) => Except.ok (Value.Bool (decide (a ≥ b)))
  | TokenType.LESS =>
    match check_number_operands l r with
    | Except.error cf => Except.error cf
    | Except.ok (a, b) => Except.ok (Value.Bool (decide (a < b)))
  | TokenType.LESS_EQUAL =>
    match check_number_operands l r with
    | Except.error cf => Except.error cf
    | Except.ok (a, b) => Except.ok (Value.Bool (decide (a ≤ b)))
  | TokenType.EQUAL_EQUAL => Except.ok (Value.Bool (is_equal l r))
  | TokenType.BANG_EQUAL => Except.ok (Value.Bool (!(is_equal l r)))
  | _ =>
    Except.error (ControlFlow.Error
      (ErrorK.UnrecognizedOpt "Unknown binary operator."))

/-- `Interpreter::visit_unary_expr` after the operand is evaluated. -/
def visitUnary (op : Token) (r : Value) : ResultExec Value :=
  match op.tokenType with
  | TokenType.MINUS =>
    match check_number_operand r with
    | Except.error cf => Except.error cf
    | Except.ok n => Except.ok (Value.Number (-n))
  | TokenType.BANG => Except.ok (Value.Bool (!(is_truthy r)))
  | _ =>
    Except.error (ControlFlow.Error
      (ErrorK.UnrecognizedOpt "Unknown unary operator."))

/-- `Interpreter::visit_super_expr`: resolved distance of `super`, the
superclass at that distance, `this` one scope nearer (`*distance - 1`
underflows — panics — when the distance is 0), then method lookup and bind. -/
def visitSuper (st : InterpState) (keyword method : Token) :
    Option (InterpState × ResultExec Value) :=
  match alookup st.locals keyword.to_string with
  | none =>
    some (st, Except.error (ControlFlow.Error
      (ErrorK.UndefinedVar "super not resolved")))
  | some distance =>
    match getAt st.envs st.environment distance "super" with
    | none => none
    | some (envs1, Except.error cf) =>
      some ({ st with envs := envs1 }, Except.error cf)
    | some (envs1, Except.ok sv) =>
      match sv with
      | Value.Class superclass =>
        match distance with
        | 0 => none
        | d + 1 =>
          match getAt envs1 st.environment d "this" with
          | none => none
          | some (envs2, Except.error cf) =>
            some ({ st with envs := envs2 }, Except.error cf)
          | some (envs2, Except.ok iv) =>
            match iv with
            | Value.Instance c fa =>
              match findMethod superclass method.to_string with
              | some m =>
                match bindFunction { st with envs := envs2 } m
                    (Value.Instance c fa) with
                | some (st3, bound) =>
                  some (st3, Except.ok (Value.Callable bound))
                | none =>
                  some ({ st with envs := envs2 }, Except.error
                    (ControlFlow.Error
                      (ErrorK.InvalidContext "Bind returned None")))
              | none =>
                some ({ st with envs := envs2 }, Except.error
                  (ControlFlow.Error (ErrorK.UndefinedVar method.to_string)))
            | _ =>
              some ({ st with envs := envs2 }, Except.error
                (ControlFlow.Error
                  (ErrorK.UndefinedVar "Expected this to be an instance")))
      | _ =>
        some ({ st with envs := envs1 }, Except.error
          (ControlFlow.Error (ErrorK.WrongValueType "Superclass is not a class")))

/-- The method-table loop of `Interpreter::visit_class_stmt`: every entry
must be a function statement; the Closure captures the environment current
while the class body executes, and — as written in the source — its
`is_initializer` flag is `name.to_string() == "this"`. -/
def buildMethodsGo (envAddr : Nat) (acc : List (String × Function)) :
    List Stmt → ResultExec (List (String × Function))
  | [] => Except.ok acc
  | Stmt.Function n params body :: rest =>
    buildMethodsGo envAddr
      (ainsert acc n.to_string
        (Function.Custom params body envAddr (n.to_string == "this"))) rest
  | _ :: _ =>
    Except.error (ControlFlow.Error (ErrorK.UnexpectedStmt "Should be a function"))

def buildMethods (envAddr : Nat) (methods : List Stmt) :
    ResultExec (List (String × Function)) :=
  buildMethodsGo envAddr [] methods

/-- `Interpreter::visit_class_stmt` after the superclass expression (if any)
has been evaluated and checked to be a `Class` value: pre-declare the name
as `Null`, open the synthetic `super` scope when inheriting, build the
method table, construct the `Class` value, restore the enclosing
environment, and assign the class to the pre-declared name. -/
def execClassCont (st : InterpState) (name : Token) (methods : List Stmt)
    (evSuperclass : Option Value) : Option (InterpState × ResultExec Unit) :=
  match stDefine st name.to_string Value.Null with
  | none => none
  | some st1 =>
    let st2 :=
      match evSuperclass with
      | some sv =>
        { st1 with
          envs := st1.envs ++ [{ values := ainsert [] "super" sv,
                                 enclosing := some st1.environment }],
          environment := st1.envs.length }
      | none => st1
    match buildMethods st2.environment methods with
    | Except.error cf => some (st2, Except.error cf)
    | Except.ok methodsMap =>
      match classNew name.to_string evSuperclass methodsMap with
      | none => none
      | some klass =>
        let st3opt :=
          if evSuperclass.isSome then
            match st2.envs[st2.environment]? with
            | none => none
            | some e =>
              match e.enclosing with
              | none => none
              | some enc => some { st2 with environment := enc }
          else some st2
        match st3opt with
        | none => none
        | some st3 =>
          match envAssign st3.envs st3.environment name.to_string
              (Value.Class klass) with
          | none => none
          | some (envs, Except.error cf) =>
            some ({ st3 with envs := envs }, Except.error cf)
          | some (envs, Except.ok _) =>
            some ({ st3 with envs := envs }, Except.ok ())

mutual
/-- `Interpreter::visit_expr` / `evaluate`, fuel-indexed. -/
def evalExpr : Nat → InterpState → Expr → Option (InterpState × ResultExec Value)
  | 0, _, _ => none
  | fuel + 1, st, e =>
    match e with
    | Expr.Literal v => some (st, Except.ok (Value.ofLiteral v))
    | Expr.Grouping inner => evalExpr fuel st inner
    | Expr.Binary l op r =>
      bindE (evalExpr fuel st l) fun st lv =>
      bindE (evalExpr fuel st r) fun st rv =>
      some (st, visitBinary lv op rv)
    | Expr.Unary op r =>
      bindE (evalExpr fuel st r) fun st rv => some (st, visitUnary op rv)
    | Expr.Variable name => lookUpVar st name
    | Expr.Assign name value =>
      bindE (evalExpr fuel st value) fun st v =>
        match alookup st.locals name.to_string with
        | some d =>
          match assignAt st.envs st.environment d name.to_string v with
          | none => none
          | some envs => some ({ st with envs := envs }, Except.ok v)
        | none =>
          match envAssign st.envs st.globals name.to_string v with
          | none => none
          | some (envs, Except.error cf) =>
            some ({ st with envs := envs }, Except.error cf)
          | some (envs, Except.ok _) =>
            some ({ st with envs := envs }, Except.ok v)
    | Expr.Logical l op r =>
      bindE (evalExpr fuel st l) fun st lv =>
        match op.tokenType with
        | TokenType.OR =>
          if is_truthy lv then some (st, Except.ok lv) else evalExpr fuel st r
        | TokenType.AND =>
          if !(is_truthy lv) then some (st, Except.ok lv)
          else evalExpr fuel st r
        | _ =>
          some (st, Except.error (ControlFlow.Error
            (ErrorK.UnexpectedOpt "Expect logical operator.")))
    | Expr.Call callee paren args =>
      bindE (evalExpr fuel st callee) fun st cv =>
        match cv with
        | Value.Callable f =>
          bindE (evalArgs fuel st args) fun st argv =>
            callFunction fuel st f argv
        | Value.Class c =>
          bindE (evalArgs fuel st args) fun st argv =>
            classCall fuel st c argv
        | _ =>
          some (st, Except.error (ControlFlow.Error
            (ErrorK.NotCallable paren.to_string)))
    | Expr.Get obj name =>
      bindE (evalExpr fuel st obj) fun st ov =>
        match ov with
        | Value.Instance c fa => instanceGet st c fa name
        | _ =>
          some (st, Except.error (ControlFlow.Error
            (ErrorK.UnexpectedExpr "Only instances have properties")))
    | Expr.Set obj name value =>
      bindE (evalExpr fuel st obj) fun st ov =>
        match ov with
        | Value.Instance _ fa =>
          bindE (evalExpr fuel st value) fun st v =>
            match instanceSet st fa name v with
            | none => none
            | some st' => some (st', Except.ok v)
        | _ =>
          some (st, Except.error (ControlFlow.Error
            (ErrorK.UnexpectedExpr "Only instances have fields")))
    | Expr.Super keyword method => visitSuper st keyword method
    | Expr.This keyword => lookUpVar st keyword
    | Expr.Lambda params body =>
      some (st, Except.ok (Value.Callable
        (Function.Custom params body st.environment false)))
    | Expr.Comma l r =>
      bindE (evalExpr fuel st l) fun st _ => evalExpr fuel st r
termination_by structural fuel => fuel

/-- Evaluate an optional initializer, defaulting to `Null`. -/
def evalVarInit : Nat → InterpState → Option Expr →
    Option (InterpState × ResultExec Value)
  | 0, _, _ => none
  | _ + 1, st, none => some (st, Except.ok Value.Null)
  | fuel + 1, st, some e => evalExpr fuel st e
termination_by structural fuel => fuel

/-- Argument evaluation of `visit_call_expr`: left to right, first error
propagates. -/
def evalArgs : Nat → InterpState → List Expr →
    Option (InterpState × ResultExec (List Value))
  | 0, _, _ => none
  | _ + 1, st, [] => some (st, Except.ok [])
  | fuel + 1, st, e :: rest =>
    bindE (evalExpr fuel st e) fun st v =>
    bindE (evalArgs fuel st rest) fun st vs =>
    some (st, Except.ok (v :: vs))
termination_by structural fuel => fuel

/-- `Interpreter::visit_stmt` / `execute`, fuel-indexed. -/
def execStmt : Nat → InterpState → Stmt → Option (InterpState × ResultExec Unit)
  | 0, _, _ => none
  | fuel + 1, st, s =>
    match s with
    | Stmt.Print e =>
      bindE (evalExpr fuel st e) fun st v =>
        some ({ st with output := st.output ++ [v] }, Except.ok ())
    | Stmt.Expression e =>
      bindE (evalExpr fuel st e) fun st _ => some (st, Except.ok ())
    | Stmt.Var name init =>
      bindE (evalVarInit fuel st init) fun st v =>
        match name.literal with
        | none => none
        | some l =>
          match stDefine st (litString l) v with
          | none => none
          | some st' => some (st', Except.ok ())
    | Stmt.Function name params body =>
      match stDefine st name.to_string
          (Value.Callable (Function.Custom params body st.environment false)) with
      | none => none
      | some st' => some (st', Except.ok ())
    | Stmt.Return _ value =>
      bindE (evalVarInit fuel st value) fun st v =>
        some (st, Except.error (ControlFlow.Runtime (RuntimeControl.Return v)))
    | Stmt.Block stmts =>
      executeBlock fuel
        { st with envs := st.envs ++ [{ values := [],
                                        enclosing := some st.environment }] }
        stmts st.envs.length
    | Stmt.If cond thenB elseB =>
      bindE (evalExpr fuel st cond) fun st cv =>
        if is_truthy cv then
          bindE (execStmt fuel st thenB) fun st _ => some (st, Except.ok ())
        else
          match elseB with
          | some eb =>
            bindE (execStmt fuel st eb) fun st _ => some (st, Except.ok ())
          | none => some (st, Except.ok ())
    | Stmt.While cond body => execWhile fuel st cond body
    | Stmt.Break =>
      some (st, Except.error (ControlFlow.Runtime RuntimeControl.Break))
    | Stmt.Class name superclass methods =>
      match superclass with
      | none => execClassCont st name methods none
      | some sc =>
        bindE (evalExpr fuel st sc) fun st v =>
          match v with
          | Value.Class c =>
            execClassCont st name methods (some (Value.Class c))
          | _ =>
            some (st, Except.error (ControlFlow.Error
              (ErrorK.UnexpectedExpr "Superclass must be a class.")))
termination_by structural fuel => fuel

/-- `Interpreter::visit_while_stmt` (interpreter.rs lines 553–561): as
written in the source, the body's result is propagated by `?`, so a `Break`
(or anything else) raised by the body leaves the loop uncaught. -/
def execWhile : Nat → InterpState → Expr → Stmt →
    Option (InterpState × ResultExec Unit)
  | 0, _, _, _ => none
  | fuel + 1, st, cond, body =>
    bindE (evalExpr fuel st cond) fun st cv =>
      if is_truthy cv then
        bindE (execStmt fuel st body) fun st _ => execWhile fuel st cond body
      else some (st, Except.ok ())
termination_by structural fuel => fuel

/-- The statement loop of `Interpreter::execute_block`
(`stmts.iter().try_for_each(...)`). -/
def execSeq : Nat → InterpState → List Stmt →
    Option (InterpState × ResultExec Unit)
  | 0, _, _ => none
  | _ + 1, st, [] => some (st, Except.ok ())
  | fuel + 1, st, s :: rest =>
    bindE (execStmt fuel st s) fun st _ => execSeq fuel st rest
termination_by structural fuel => fuel

/-- `Interpreter::execute_block`: swap in the given environment, run the
statements, and always restore the previous environment (also on error or
signal propagation). -/
def executeBlock : Nat → InterpState → List Stmt → Nat →
    Option (InterpState × ResultExec Unit)
  | 0, _, _, _ => none
  | fuel + 1, st, stmts, envAddr =>
    match execSeq fuel { st with environment := envAddr } stmts with
    | none => none
    | some (st', r) => some ({ st' with environment := st.environment }, r)
termination_by structural fuel => fuel

/-- `impl LoxCallable for Function`, `call`: a `Native` runs the host body;
a `Custom` binds parameters pairwise with arguments in a child of the
captured closure environment, executes the body, converts a `Return` signal
into the call's result, and yields `Null` on normal completion. No arity
check happens here or at the call site. -/
def callFunction : Nat → InterpState → Function → List Value →
    Option (InterpState × ResultExec Value)
  | 0, _, _, _ => none
  | _ + 1, st, Function.Native _ id, args =>
    some (st, Except.ok (nativeImpl id args))
  | fuel + 1, st, Function.Custom params body closure _, args =>
    match bindParams params args with
    | none => none
    | some bound =>
      match executeBlock fuel
          { st with envs := st.envs ++ [{ values := bound,
                                          enclosing := some closure }] }
          body st.envs.length with
      | none => none
      | some (st2, Except.ok _) => some (st2, Except.ok Value.Null)
      | some (st2, Except.error (ControlFlow.Runtime (RuntimeControl.Return v))) =>
        some (st2, Except.ok v)
      | some (st2, Except.error e) => some (st2, Except.error e)
termination_by structural fuel => fuel

/-- `impl LoxCallable for Class`, `call`: allocate a fresh empty instance,
call a bound `init` when `find_method` yields one and the bind succeeds, and
return the instance regardless of what `init` returned. -/
def classCall : Nat → InterpState → ClassData → List Value →
    Option (InterpState × ResultExec Value)
  | 0, _, _, _ => none
  | fuel + 1, st, c, args =>
    let inst := Value.Instance c st.fieldsHeap.length
    let st1 := { st with fieldsHeap := st.fieldsHeap ++ [[]] }
    match findMethod c "init" with
    | some init =>
      match bindFunction st1 init inst with
      | some (st2, bound) =>
        match callFunction fuel st2 bound args with
        | none => none
        | some (st3, Except.error e) => some (st3, Except.error e)
        | some (st3, Except.ok _) => some (st3, Except.ok inst)
      | none => some (st1, Except.ok inst)
    | none => some (st1, Except.ok inst)
termination_by structural fuel => fuel

end

/-- `Interpreter::interpret`: execute top-level statements in order; only a
genuine `Error` stops and surfaces; `Ok` and `Runtime` control signals both
fall through to the next statement. -/
def interpret : Nat → InterpState → List Stmt →
    Option (InterpState × Except ErrorK Unit)
  | _, st, [] => some (st, Except.ok ())
  | fuel, st, s :: rest =>
    match execStmt fuel st s with
    | none => none
    | some (st', Except.error (ControlFlow.Error e)) =>
      some (st', Except.error e)
    | some (st', _) => interpret fuel st' rest

/-- `Interpreter::new` followed by `set_stdlib`: one global environment
holding the native `clock`. -/
def initInterpState : InterpState :=
  { envs := [{ values := [("clock", Value.Callable (Function.Native 0 0))],
               enclosing := none }],
    fieldsHeap := [], environment := 0, globals := 0, locals := [],
    output := [] }

/-- `FunctionType` from lox-interpreter/src/resolver.rs. -/
inductive FunctionType where
  | None
  | Function
  | Initializer
  | Method
deriving DecidableEq

/-- `ClassType` from resolver.rs. -/
inductive ClassType where
  | None
  | Class
deriving DecidableEq

/-- `Resolver` state: the scope stack (head = innermost, mirroring the Rust
`Vec` whose last element is innermost), the current function/class context,
and the resolution table it writes into the interpreter
(`interpreter.borrow_mut().resolve(name, depth)` keyed by the token's
rendered text). Scope entries are `(is_defined, is_used)` pairs. -/
structure ResolverState where
  scopes : List (List (String × (Bool × Bool)))
  current_function : FunctionType
  current_class : ClassType
  locals : List (String × Nat)

def initResolverState : ResolverState :=
  { scopes := [], current_function := FunctionType.None,
    current_class := ClassType.None, locals := [] }

/-- `Resolver::begin_scope`. -/
def beginScope (st : ResolverState) : ResolverState :=
  { st with scopes := [] :: st.scopes }

/-- `Resolver::begin_scope` immediately followed by
`scopes.last_mut().expect("Scope must exist").insert(k, v)` (the `expect`
cannot fire: the scope was just pushed). -/
def pushScopeWith (st : ResolverState) (k : String) (v : Bool × Bool) :
    ResolverState :=
  { st with scopes := [(k, v)] :: st.scopes }

/-- `Resolver::end_scope`: pop the innermost scope and report the first
declared-but-unused name other than the synthetic `this`/`super`. -/
def endScope (st : ResolverState) : ResolverState × ResultExec Unit :=
  match st.scopes with
  | [] => (st, Except.ok ())
  | scope :: rest =>
    let st' := { st with scopes := rest }
    match scope.find? (fun p =>
        p.2.1 && !p.2.2 && p.1 != "this" && p.1 != "super") with
    | some p =>
      (st', Except.error (ControlFlow.Error (ErrorK.UnusedVariable p.1)))
    | none => (st', Except.ok ())

/-- `Resolver::declare`: a no-op at global depth, else mark the name
present-but-undefined in the innermost scope. -/
def declareName (st : ResolverState) (name : Token) : ResolverState :=
  match st.scopes with
  | [] => st
  | scope :: rest =>
    { st with scopes := ainsert scope name.to_string (false, false) :: rest }

/-- `Resolver::define`: a no-op at global depth, else mark the name defined
(net effect of the source's `get_mut`/`insert` pair). -/
def defineName (st : ResolverState) (name : Token) : ResolverState :=
  match st.scopes with
  | [] => st
  | scope :: rest =>
    { st with scopes := ainsert scope name.to_string (true, false) :: rest }

/-- The mark-as-used loop of `Resolver::visit_var_expr`: flip `is_used` in
the innermost scope containing the name. -/
def markUsed : List (List (String × (Bool × Bool))) → String →
    List (List (String × (Bool × Bool)))
  | [], _ => []
  | scope :: rest, key =>
    match alookup scope key with
    | some (d, _) => ainsert scope key (d, true) :: rest
    | none => scope :: markUsed rest key

/-- `Resolver::resolve_local`: distance of the innermost scope containing
the name; when found, record it in the interpreter's resolution table under
the token's rendered text. Global (absent) names record nothing. -/
def resolveLocal (st : ResolverState) (name : Token) : ResolverState :=
  match st.scopes.findIdx? (fun scope =>
      (alookup scope name.to_string).isSome) with
  | some i => { st with locals := ainsert st.locals name.to_string i }
  | none => st

/-- `Resolver::visit_var_expr`: reject reading a declared-but-undefined
local in its own initializer, then mark used and resolve. -/
def resolveVarExpr (st : ResolverState) (name : Token) :
    ResolverState × ResultExec Unit :=
  let key := name.to_string
  let inOwnInit : Bool :=
    match st.scopes with
    | [] => false
    | scope :: _ =>
      match alookup scope key with
      | some (defined, _) => !defined
      | none => false
  if inOwnInit then
    (st, Except.error (ControlFlow.Error
      (ErrorK.InvalidContext "Cant read local variable in its own initializer")))
  else
    let st := { st with scopes := markUsed st.scopes key }
    (resolveLocal st name, Except.ok ())

/-- The `?` operator on a `ResultExec`, generic in the carried state. -/
def bindR {σ α β : Type} (r : Option (σ × ResultExec α))
    (k : σ → α → Option (σ × ResultExec β)) : Option (σ × ResultExec β) :=
  match r with
  | none => none
  | some (st, Except.error e) => some (st, Except.error e)
  | some (st, Except.ok v) => k st v

mutual
/-- `Resolver::visit_expr`. The `Super` arm only resolves the keyword —
unlike `This` it performs no class-context check. `Lambda` and `Comma`
fall to the catch-all "unknown expression type" arm, as in the source. -/
def resolveExpr : Nat → ResolverState → Expr →
    Option (ResolverState × ResultExec Unit)
  | 0, _, _ => none
  | fuel + 1, st, e =>
    match e with
    | Expr.Variable name => some (resolveVarExpr st name)
    | Expr.Assign name value =>
      bindR (resolveExpr fuel st value) fun st _ =>
        some (resolveLocal st name, Except.ok ())
    | Expr.Binary l _ r =>
      bindR (resolveExpr fuel st l) fun st _ => resolveExpr fuel st r
    | Expr.Call callee _ args =>
      bindR (resolveExpr fuel st callee) fun st _ =>
        resolveExprList fuel st args
    | Expr.Grouping inner => resolveExpr fuel st inner
    | Expr.Literal _ => some (st, Except.ok ())
    | Expr.Logical l _ r =>
      bindR (resolveExpr fuel st l) fun st _ => resolveExpr fuel st r
    | Expr.Unary _ r => resolveExpr fuel st r
    | Expr.Get obj _ => resolveExpr fuel st obj
    | Expr.Set obj _ value =>
      bindR (resolveExpr fuel st value) fun st _ => resolveExpr fuel st obj
    | Expr.Super keyword _ => some (resolveLocal st keyword, Except.ok ())
    | Expr.This keyword =>
      if st.current_class = ClassType.None then
        some (st, Except.error (ControlFlow.Error
          (ErrorK.InvalidContext "Cant use this outside of a class.")))
      else some (resolveLocal st keyword, Except.ok ())
    | _ =>
      some (st, Except.error (ControlFlow.Error
        (ErrorK.UnexpectedExpr "unknown expression type")))
termination_by structural fuel => fuel

/-- Argument loop of the resolver's `visit_call_expr`. -/
def resolveExprList : Nat → ResolverState → List Expr →
    Option (ResolverState × ResultExec Unit)
  | 0, _, _ => none
  | _ + 1, st, [] => some (st, Except.ok ())
  | fuel + 1, st, e :: rest =>
    bindR (resolveExpr fuel st e) fun st _ => resolveExprList fuel st rest
termination_by structural fuel => fuel

/-- Resolve an optional expression (a `var` initializer or `return` value). -/
def resolveOptExpr : Nat → ResolverState → Option Expr →
    Option (ResolverState × ResultExec Unit)
  | 0, _, _ => none
  | _ + 1, st, none => some (st, Except.ok ())
  | fuel + 1, st, some e => resolveExpr fuel st e

/-- `Resolver::visit_stmt`. `Stmt::Break` has no arm in the source's match
and falls to the catch-all "unknown statement type" error. -/
def resolveStmt : Nat → ResolverState → Stmt →
    Option (ResolverState × ResultExec Unit)
  | 0, _, _ => none
  | fuel + 1, st, s =>
    match s with
    | Stmt.Block statements =>
      bindR (resolveStmtList fuel (beginScope st) statements) fun st _ =>
        match endScope st with
        | (st, Except.error e) => some (st, Except.error e)
        | (st, Except.ok _) => some (st, Except.ok ())
    | Stmt.Var name init =>
      bindR (resolveOptExpr fuel (declareName st name) init) fun st _ =>
        some (defineName st name, Except.ok ())
    | Stmt.Function name params body =>
      resolveFunction fuel (defineName (declareName st name) name)
        params body FunctionType.Function
    | Stmt.Expression e =>
      bindR (resolveExpr fuel st e) fun st _ => some (st, Except.ok ())
    | Stmt.If cond thenB elseB =>
      bindR (resolveExpr fuel st cond) fun st _ =>
      bindR (resolveStmt fuel st thenB) fun st _ =>
        match elseB with
        | some eb =>
          bindR (resolveStmt fuel st eb) fun st _ => some (st, Except.ok ())
        | none => some (st, Except.ok ())
    | Stmt.Print e =>
      bindR (resolveExpr fuel st e) fun st _ => some (st, Except.ok ())
    | Stmt.Return _ value =>
      match st.current_function with
      | FunctionType.None =>
        some (st, Except.error (ControlFlow.Error
          (ErrorK.UnexpectedStmt "return statement outside of function")))
      | _ =>
        match value with
        | some v =>
          if st.current_function = FunctionType.Initializer then
            some (st, Except.error (ControlFlow.Error
              (ErrorK.UnexpectedStmt "Cant return a value from an initializer.")))
          else
            bindR (resolveExpr fuel st v) fun st _ => some (st, Except.ok ())
        | none => some (st, Except.ok ())
    | Stmt.While cond body =>
      bindR (resolveExpr fuel st cond) fun st _ =>
      bindR (resolveStmt fuel st body) fun st _ => some (st, Except.ok ())
    | Stmt.Class name superclass methods =>
      resolveClassStmt fuel st name superclass methods
    | _ =>
      some (st, Except.error (ControlFlow.Error
        (ErrorK.UnexpectedStmt "unknown statement type")))
termination_by structural fuel => fuel

/-- Statement loop of the resolver's `visit_block_stmt` (and of function
bodies), propagating the first error. -/
def resolveStmtList : Nat → ResolverState → List Stmt →
    Option (ResolverState × ResultExec Unit)
  | 0, _, _ => none
  | _ + 1, st, [] => some (st, Except.ok ())
  | fuel + 1, st, s :: rest =>
    bindR (resolveStmt fuel st s) fun st _ => resolveStmtList fuel st rest
termination_by structural fuel => fuel

/-- `Resolver::resolve_function`: push the declared function type, open the
parameter scope, declare+define each parameter, resolve the body, close the
scope, restore the enclosing function type. -/
def resolveFunction : Nat → ResolverState → List Token → List Stmt →
    FunctionType → Option (ResolverState × ResultExec Unit)
  | 0, _, _, _, _ => none
  | fuel + 1, st, params, body, ftype =>
    let enclosing := st.current_function
    let st := beginScope { st with current_function := ftype }
    let st := params.foldl (fun st p => defineName (declareName st p) p) st
    bindR (resolveStmtList fuel st body) fun st _ =>
      match endScope st with
      | (st, Except.error e) => some (st, Except.error e)
      | (st, Except.ok _) =>
        some ({ st with current_function := enclosing }, Except.ok ())
termination_by structural fuel => fuel

/-- `Resolver::visit_class_stmt`: enter class context, declare+define the
class name, validate and resolve the superclass (a class must not inherit
from itself; the superclass must be named by a variable), open the
synthetic `super` scope when inheriting, then resolve the body. -/
def resolveClassStmt : Nat → ResolverState → Token → Option Expr →
    List Stmt → Option (ResolverState × ResultExec Unit)
  | 0, _, _, _, _ => none
  | fuel + 1, st, name, superclass, methods =>
    let enclosingClass := st.current_class
    let st := { st with current_class := ClassType.Class }
    let st := defineName (declareName st name) name
    match superclass with
    | some sc =>
      match sc with
      | Expr.Variable n =>
        if n = name then
          some (st, Except.error (ControlFlow.Error
            (ErrorK.UnexpectedExpr "A class cant inherit from itself.")))
        else
          bindR (resolveExpr fuel st sc) fun st _ =>
            resolveClassBody fuel (pushScopeWith st "super" (true, false))
              methods true enclosingClass
      | _ =>
        some (st, Except.error (ControlFlow.Error
          (ErrorK.UnexpectedExpr "Superclass declaration should be a variable")))
    | none => resolveClassBody fuel st methods false enclosingClass
termination_by structural fuel => fuel

/-- Remainder of the resolver's `visit_class_stmt`: the synthetic `this`
scope, the method loop, the scope pops, and the class-context restore. -/
def resolveClassBody : Nat → ResolverState → List Stmt → Bool → ClassType →
    Option (ResolverState × ResultExec Unit)
  | 0, _, _, _, _ => none
  | fuel + 1, st, methods, hasSuper, enclosingClass =>
    bindR (resolveMethods fuel (pushScopeWith st "this" (true, false))
        methods) fun st _ =>
      match endScope st with
      | (st, Except.error e) => some (st, Except.error e)
      | (st, Except.ok _) =>
        if hasSuper then
          match endScope st with
          | (st, Except.error e) => some (st, Except.error e)
          | (st, Except.ok _) =>
            some ({ st with current_class := enclosingClass }, Except.ok ())
        else
          some ({ st with current_class := enclosingClass }, Except.ok ())
termination_by structural fuel => fuel

/-- The method loop of the resolver's `visit_class_stmt`: each entry must be
a function statement; a method literally named `init` is resolved as
`FunctionType::Initializer`. -/
def resolveMethods : Nat → ResolverState → List Stmt →
    Option (ResolverState × ResultExec Unit)
  | 0, _, _ => none
  | _ + 1, st, [] => some (st, Except.ok ())
  | fuel + 1, st, m :: rest =>
    match m with
    | Stmt.Function n params body =>
      bindR (resolveFunction fuel st params body
          (if n.to_string == "init" then FunctionType.Initializer
           else FunctionType.Method)) fun st _ =>
        resolveMethods fuel st rest
    | _ =>
      some (st, Except.error (ControlFlow.Error
        (ErrorK.UnexpectedStmt "Should be a function")))
termination_by structural fuel => fuel

end

/-- `Resolver::resolve_stmts`: resolve top-level statements in order,
surfacing the first genuine error (a stray control signal would be
swallowed, exactly as in `interpret`). -/
def resolveProgram : Nat → ResolverState → List Stmt →
    Option (ResolverState × Except ErrorK Unit)
  | _, st, [] => some (st, Except.ok ())
  | fuel, st, s :: rest =>
    match resolveStmt fuel st s with
    | none => none
    | some (st', Except.error (ControlFlow.Error e)) =>
      some (st', Except.error e)
    | some (st', _) => resolveProgram fuel st' rest

/-- `run` from lox/src/main.rs, with the external lexer/parser stages
summarized by an `Except`: a scan or parse error is `report`ed (setting the
process-wide `HAD_ERROR` flag) and `run` returns `false`; a resolver error
is printed and `run` returns `true`; an interpreter error likewise returns
`true`. The result is `(had_error flag, run's boolean)`. -/
def runPipeline (fuel : Nat) (parseRes : Except Unit (List Stmt)) :
    Option (Bool × Bool) :=
  match parseRes with
  | Except.error _ => some (true, false)
  | Except.ok stmts =>
    match resolveProgram fuel initResolverState stmts with
    | none => none
    | some (_, Except.error _) => some (false, true)
    | some (rst, Except.ok _) =>
      match interpret fuel { initInterpState with locals := rst.locals }
          stmts with
      | none => none
      | some (_, Except.ok _) => some (false, false)
      | some (_, Except.error _) => some (false, true)

/-- The exit-code decision of `run_file`: `process::exit(65)` when
`had_error()`, else `process::exit(70)` when `run` returned `true`, else a
normal exit (0). -/
def runFileExitCode (flags : Bool × Bool) : Nat :=
  if flags.1 then 65 else if flags.2 then 70 else 0

/-! Supporting definitions for the claim theorems. -/

/-- Number of superclass links of a class (a well-founded measure on the
inheritance chain). -/
def classDepth : ClassData → Nat
  | .mk _ sup _ =>
    match sup with
    | some s => classDepth s + 1
    | none => 0

/-- The inheritance chain of a class: the class itself followed by all its
transitive superclasses. -/
def superchain : ClassData → List ClassData
  | .mk n sup m =>
    ClassData.mk n sup m ::
      (match sup with
       | some s => superchain s
       | none => [])

/-- Spec-side method lookup, phrased as the specification words it: the
first class anywhere on the superclass chain whose own table has the name. -/
def methodOnChain (c : ClassData) (n : String) : Option Function :=
  (superchain c).findSome? fun k => alookup k.methods n

/-- Spec-side equality predicate as amended by claim C5: primitives compare
structurally, `Null` equals only `Null`, and every comparison involving a
`Class`, `Instance` or `Callable` — even with itself — is `false`. -/
def isEqualSpec (l r : Value) : Bool :=
  match l, r with
  | Value.Null, Value.Null => true
  | Value.Number a, Value.Number b => a == b
  | Value.String a, Value.String b => a == b
  | Value.Bool a, Value.Bool b => a == b
  | _, _ => false

/-- A single-scope environment chain binding `x` to `1` (claim C2). -/
def envChainOne : List Env :=
  [{ values := [("x", Value.Number 1)], enclosing := none }]

/-- A two-scope chain: a root binding `y` and an empty child (claim C2). -/
def envChainTwo : List Env :=
  [{ values := [("y", Value.Number 1)], enclosing := none },
   { values := [], enclosing := some 0 }]

/-- The closing-parenthesis token a call expression carries. -/
def parenTok : Token := { tokenType := TokenType.RIGHT_PAREN, literal := none }

/-- A one-parameter lambda whose body prints `7` and then reads the
parameter `p` (claim C3). -/
def oneParamLambda : Expr :=
  Expr.Lambda [identTok "p"]
    [Stmt.Print (Expr.Literal (Literal.num 7)),
     Stmt.Print (Expr.Variable (identTok "p"))]

/-- A one-parameter lambda whose body only prints `7` (claim C3). -/
def oneParamPrintLambda : Expr :=
  Expr.Lambda [identTok "p"] [Stmt.Print (Expr.Literal (Literal.num 7))]

/-- The interpreter state after the resolver has recorded distance 0 for the
parameter reference `p` of the claim C3 lambdas. -/
def stResolvedP : InterpState := { initInterpState with locals := [("p", 0)] }

/-- A class with no methods and no superclass. -/
def classA : ClassData := ClassData.mk "A" none []

/-- A class whose own table has a two-parameter `init`. -/
def classB : ClassData :=
  ClassData.mk "B" none
    [("init", Function.Custom [identTok "x", identTok "y"] [] 0 false)]

/-- A subclass of `classB` with an empty own table: `init` is found on the
superclass chain only. -/
def classSub : ClassData := ClassData.mk "S" (some classB) []

/-- The shadowing program of claim C7:
`var a = 1; { var a = 2; print a; } print a;`. -/
def shadowProgram : List Stmt :=
  [Stmt.Var (identTok "a") (some (Expr.Literal (Literal.num 1))),
   Stmt.Block
     [Stmt.Var (identTok "a") (some (Expr.Literal (Literal.num 2))),
      Stmt.Print (Expr.Variable (identTok "a"))],
   Stmt.Print (Expr.Variable (identTok "a"))]

/-- The `super` keyword token. -/
def superTok : Token := { tokenType := TokenType.SUPER, literal := none }

/-- The `this` keyword token. -/
def thisTok : Token := { tokenType := TokenType.THIS, literal := none }

/-- The `return` keyword token. -/
def returnTok : Token := { tokenType := TokenType.RETURN, literal := none }

/-- A top-level `super.m` expression statement, outside any class (claim
C8). -/
def superOutsideClassProgram : List Stmt :=
  [Stmt.Expression (Expr.Super superTok (identTok "m"))]

/-- A top-level `return;`, outside any function: rejected by the resolver
(claims C8/C9). -/
def returnOutsideFunctionProgram : List Stmt :=
  [Stmt.Return returnTok none]

/-- A program that resolves but reads an undefined global at run time
(claim C9). -/
def undefinedVarProgram : List Stmt :=
  [Stmt.Expression (Expr.Variable (identTok "someUndefined"))]

/-! Claim theorems. -/

/-- Claim C1 (code bug): contrary to the claim, `visit_while_stmt` does not
catch `Break`. Executing `while (true) break;` returns the `Break` control
signal itself rather than unit, and inside a block the escaped `Break`
aborts the trailing statements: `{ while (true) break; print 1; }` also
returns the `Break` signal and prints nothing. -/
theorem c1_while_break_escapes :
    execStmt 10 initInterpState
        (Stmt.While (Expr.Literal (Literal.bool true)) Stmt.Break) =
      some (initInterpState,
        Except.error (ControlFlow.Runtime RuntimeControl.Break)) ∧
    (execStmt 20 initInterpState
        (Stmt.Block
          [Stmt.While (Expr.Literal (Literal.bool true)) Stmt.Break,
           Stmt.Print (Expr.Literal (Literal.num 1))])).map
        (fun r => (r.1.output, r.2)) =
      some ([], Except.error (ControlFlow.Runtime RuntimeControl.Break)) :=
  ⟨rfl, rfl⟩

/-- Claim C2 (code bug): `ancestor` starts from a fresh clone of the current
scope, so at distance 0 `assign_at` inserts into the clone and the write is
lost: on a one-scope chain binding `x ↦ 1`, `assign_at(0, x, 2)` followed by
`get_at(0, x)` yields `1`, and the original scope still binds `x ↦ 1`. At
distance 1 (through the shared `enclosing` link) the write does reach the
real scope, and on a chain shorter than the distance both accessors panic
(`none`) rather than produce a user-facing error, as the claim states. -/
theorem c2_assign_at_distance_zero_lost :
    ((assignAt envChainOne 0 0 "x" (Value.Number 2)).bind
        fun envs => (getAt envs 0 0 "x").map fun r => r.2) =
      some (Except.ok (Value.Number 1)) ∧
    (assignAt envChainOne 0 0 "x" (Value.Number 2)).map
        (fun envs => envs[0]?) =
      some (some { values := [("x", Value.Number 1)], enclosing := none }) ∧
    ((assignAt envChainTwo 1 1 "y" (Value.Number 2)).bind
        fun envs => (getAt envs 1 1 "y").map fun r => r.2) =
      some (Except.ok (Value.Number 2)) ∧
    getAt envChainOne 0 1 "x" = none ∧
    assignAt envChainOne 0 1 "x" (Value.Number 2) = none :=
  ⟨rfl, rfl, rfl, rfl, rfl⟩

/-- Claim C3 counterexample: calling a one-parameter closure with zero
arguments is not stopped before the body — the body executes (it prints 7)
and the unbound parameter read then fails with `UndefinedVar`, refuting
"a Closure body is only ever executed with exactly as many arguments as it
has parameters". -/
theorem c3_counterexample_arity_mismatch_reaches_body :
    (evalExpr 50 stResolvedP (Expr.Call oneParamLambda parenTok [])).map
        (fun r => (r.1.output, r.2)) =
      some ([Value.Number 7],
        Except.error (ControlFlow.Error
          (ErrorK.UndefinedVar "Undefined variable p."))) := rfl

/-- Claim C3 as amended: the call site consults no arity; `Function::call`
binds parameters to arguments pairwise (zip), so a call with extra
arguments silently drops them and still executes the body to completion,
while a call with matching arguments binds each parameter to its argument. -/
theorem c3_amended_zip_binding :
    (∀ l1 l2 : Literal,
      (evalExpr 50 stResolvedP
          (Expr.Call oneParamPrintLambda parenTok
            [Expr.Literal l1, Expr.Literal l2])).map
          (fun r => (r.1.output, r.2)) =
        some ([Value.Number 7], Except.ok Value.Null)) ∧
    (∀ l1 : Literal,
      (evalExpr 50 stResolvedP
          (Expr.Call oneParamLambda parenTok [Expr.Literal l1])).map
          (fun r => (r.1.output, r.2)) =
        some ([Value.Number 7, Value.ofLiteral l1], Except.ok Value.Null)) :=
  ⟨fun _ _ => rfl, fun _ => rfl⟩

/-- Claim C4 (code bug): contrary to the claim (and to the resolver and
`Class::call`, which both key on `init`), `visit_class_stmt` sets the
`is_initializer` flag from `name.to_string() == "this"`: a method literally
named `init` gets the flag `false`, a method literally named `this` gets
`true`, and a full `class C { init() {} }` declaration stores an `init`
Closure whose flag is `false`. -/
theorem c4_initializer_flag_tests_this_not_init :
    (∀ envAddr : Nat,
      buildMethods envAddr [Stmt.Function (identTok "init") [] []] =
        Except.ok [("init", Function.Custom [] [] envAddr false)]) ∧
    (∀ envAddr : Nat,
      buildMethods envAddr [Stmt.Function (identTok "this") [] []] =
        Except.ok [("this", Function.Custom [] [] envAddr true)]) ∧
    (execStmt 10 initInterpState
        (Stmt.Class (identTok "C") none
          [Stmt.Function (identTok "init") [] []])).map
        (fun r =>
          ((match r.1.envs[0]? with
            | some e => alookup e.values "C"
            | none => none), r.2)) =
      some (some (Value.Class (ClassData.mk "C" none
        [("init", Function.Custom [] [] 0 false)])), Except.ok ()) :=
  ⟨fun _ => rfl, fun _ => rfl, rfl⟩

/-- Claim C5 counterexample: an `Instance` value compared with itself (the
same class data and the same fields address, i.e. the same object) is not
equal under `is_equal`, refuting "every Instance value is equal to itself". -/
theorem c5_counterexample_instance_not_equal_to_itself :
    is_equal (Value.Instance classA 0) (Value.Instance classA 0) = false :=
  rfl

/-- Claim C5 as amended: `is_equal` compares Number, String, Bool and Null
structurally (Null equals only Null) but falls to a catch-all `false` for
everything else, so Class, Instance and Callable values are never equal —
not by identity, not even to themselves. -/
theorem c5_amended_equality :
    (∀ l r, is_equal l r = isEqualSpec l r) ∧
    (∀ c a, is_equal (Value.Instance c a) (Value.Instance c a) = false) := by
  refine ⟨fun l r => ?_, fun c a => rfl⟩
  cases l <;> cases r <;> rfl

/-- Helper for claim C6: `find_method` agrees with the spec-side walk over
the superclass chain (strong induction on the chain depth). -/
theorem findMethod_eq_aux :
    ∀ (k : Nat) (c : ClassData), classDepth c ≤ k →
      ∀ n, findMethod c n = methodOnChain c n := by
  intro k
  induction k with
  | zero =>
    intro c hc n
    cases c with
    | mk name sup m =>
      cases sup with
      | none =>
        cases h : alookup m n <;>
          simp [findMethod, methodOnChain, superchain, List.findSome?,
            ClassData.methods, h]
      | some s => simp [classDepth] at hc
  | succ k ih =>
    intro c hc n
    cases c with
    | mk name sup m =>
      cases sup with
      | none =>
        cases h : alookup m n <;>
          simp [findMethod, methodOnChain, superchain, List.findSome?,
            ClassData.methods, h]
      | some s =>
        have hd : classDepth s ≤ k := by
          simp [classDepth] at hc
          omega
        cases h : alookup m n with
        | some f =>
          simp [findMethod, methodOnChain, superchain, List.findSome?,
            ClassData.methods, h]
        | none =>
          simp [findMethod, methodOnChain, superchain, List.findSome?,
            ClassData.methods, h]
          have := ih s hd n
          simpa [methodOnChain] using this

/-- Helper for claim C6: `find_method` searches the own table first and then
the superclass chain transitively. -/
theorem findMethod_eq_methodOnChain (c : ClassData) (n : String) :
    findMethod c n = methodOnChain c n :=
  findMethod_eq_aux (classDepth c) c le_rfl n

/-- Claim C6: whenever calling a class succeeds, the result is the freshly
allocated instance of that class (fields address `st.fieldsHeap.length`,
allocated empty), regardless of what `init` returned; and the reported class
arity is the arity of the `init` found anywhere on the superclass chain, or
0 when no class on the chain has one. -/
theorem c6_class_call_result_and_arity :
    (∀ (fuel : Nat) (st : InterpState) (c : ClassData) (args : List Value)
        (st' : InterpState) (v : Value),
      classCall fuel st c args = some (st', Except.ok v) →
        v = Value.Instance c st.fieldsHeap.length) ∧
    (∀ c : ClassData, classArity c =
      match methodOnChain c "init" with
      | some f => f.arity
      | none => 0) := by
  constructor
  · intro fuel st c args st' v h
    cases fuel with
    | zero => simp [classCall] at h
    | succ fuel =>
      simp only [classCall] at h
      split at h
      · split at h
        · split at h
          · simp at h
          · simp at h
          · simp_all
        · simp_all
      · simp_all
  · intro c
    rw [classArity, findMethod_eq_methodOnChain]

/-- Witness for claim C6: calling the method-less `classA` yields its fresh
instance, and `classSub`, whose `init` lives only on its superclass
`classB`, reports arity 2. -/
theorem c6_class_call_result_and_arity_witness :
    Value.Instance classA 0 = Value.Instance classA 0 ∧ classArity classSub = 2 :=
  ⟨c6_class_call_result_and_arity.1 10 initInterpState classA []
      { initInterpState with fieldsHeap := [[]] } (Value.Instance classA 0) rfl,
   (c6_class_call_result_and_arity.2 classSub).trans rfl⟩

/-- Claim C7: resolving `var a = 1; { var a = 2; print a; } print a;`
records distance 0 for the (textually keyed) reference `a` and reports no
error, and interpreting with that resolution prints `2` (the inner, shadowing
binding) and then `1` (the outer binding, visible again after the block). -/
theorem c7_shadowing_prints_two_then_one :
    (resolveProgram 99 initResolverState shadowProgram).map
        (fun r => (r.1.locals, r.2)) =
      some ([("a", 0)], Except.ok ()) ∧
    (interpret 99 { initInterpState with locals := [("a", 0)] }
        shadowProgram).map (fun r => (r.1.output, r.2)) =
      some ([Value.Number 2, Value.Number 1], Except.ok ()) :=
  ⟨rfl, rfl⟩

/-- Claim C8 counterexample: the Resolver accepts a program whose only
statement is a `super` expression outside any class — it resolves
successfully with an empty resolution table and reports no StaticError,
refuting the claim that such a program is rejected before evaluation. -/
theorem c8_counterexample_resolver_accepts_super_outside_class :
    (resolveProgram 99 initResolverState superOutsideClassProgram).map
        (fun r => (r.1.locals, r.2)) =
      some ([], Except.ok ()) := rfl

/-- Claim C8 as amended: `this` outside a class and `return` outside a
function are rejected by the Resolver, but `super` outside a class is not
checked statically — the Resolver passes it through, and the use fails only
at run time with the `UndefinedVar` runtime error `super not resolved`. -/
theorem c8_amended_super_not_statically_checked :
    (resolveProgram 99 initResolverState superOutsideClassProgram).map
        (fun r => r.2) = some (Except.ok ()) ∧
    (resolveProgram 99 initResolverState
        [Stmt.Expression (Expr.This thisTok)]).map (fun r => r.2) =
      some (Except.error
        (ErrorK.InvalidContext "Cant use this outside of a class.")) ∧
    (resolveProgram 99 initResolverState returnOutsideFunctionProgram).map
        (fun r => r.2) =
      some (Except.error
        (ErrorK.UnexpectedStmt "return statement outside of function")) ∧
    (interpret 99 initInterpState superOutsideClassProgram).map
        (fun r => r.2) =
      some (Except.error (ErrorK.UndefinedVar "super not resolved")) :=
  ⟨rfl, rfl, rfl, rfl⟩

/-- Claim C9 counterexample: a batch run of a program the Resolver rejects
(`return;` at top level) and a batch run of a program that fails at run time
(an undefined variable read) terminate with the same exit code, 70 — the
resolver-error branch of `run` returns the same boolean as the runtime-error
branch and never sets `HAD_ERROR` — refuting the claim that the two failure
kinds get distinct codes. -/
theorem c9_counterexample_static_and_runtime_same_exit :
    (runPipeline 99 (Except.ok returnOutsideFunctionProgram)).map
        runFileExitCode = some 70 ∧
    (runPipeline 99 (Except.ok undefinedVarProgram)).map
        runFileExitCode = some 70 ∧
    (runPipeline 99 (Except.ok returnOutsideFunctionProgram)).map
        runFileExitCode =
      (runPipeline 99 (Except.ok undefinedVarProgram)).map runFileExitCode :=
  ⟨rfl, rfl, rfl⟩

/-- Claim C9 as amended: only scanner/parser failures receive the distinct
exit code 65 (via the `HAD_ERROR` flag); a Resolver StaticError and a
runtime RuntimeError both exit with code 70, and a clean run exits 0. -/
theorem c9_amended_exit_codes :
    (runPipeline 99 (Except.ok returnOutsideFunctionProgram)).map
        runFileExitCode = some 70 ∧
    (runPipeline 99 (Except.ok undefinedVarProgram)).map
        runFileExitCode = some 70 ∧
    (runPipeline 99 (Except.error ())).map runFileExitCode = some 65 ∧
    (runPipeline 99 (Except.ok [Stmt.Print (Expr.Literal (Literal.num 1))])).map
        runFileExitCode = some 0 :=
  ⟨rfl, rfl, rfl, rfl⟩

/-- Claim C10: when a top-level statement produces a `Break` or `Return`
control signal, `interpret` silently discards it and continues with the
remaining statements, while a genuine error stops execution and is the only
thing surfaced to the caller. -/
theorem c10_interpret_discards_control_signals :
    (∀ (fuel : Nat) (s : Stmt) (rest : List Stmt) (st st' : InterpState)
        (c : RuntimeControl),
      execStmt fuel st s = some (st', Except.error (ControlFlow.Runtime c)) →
        interpret fuel st (s :: rest) = interpret fuel st' rest) ∧
    (∀ (fuel : Nat) (s : Stmt) (rest : List Stmt) (st st' : InterpState)
        (e : ErrorK),
      execStmt fuel st s = some (st', Except.error (ControlFlow.Error e)) →
        interpret fuel st (s :: rest) = some (st', Except.error e)) := by
  constructor <;> intro fuel s rest st st' x h <;> simp [interpret, h]

/-- Witness for claim C10: a top-level `break;` (an escaped `Break`) is
discarded — interpreting `break; print 1;` continues exactly as `print 1;`
alone — while an undefined-variable error stops and surfaces. -/
theorem c10_interpret_discards_control_signals_witness :
    interpret 10 initInterpState
        [Stmt.Break, Stmt.Print (Expr.Literal (Literal.num 1))] =
      interpret 10 initInterpState [Stmt.Print (Expr.Literal (Literal.num 1))] ∧
    interpret 10 initInterpState
        [Stmt.Expression (Expr.Variable (identTok "zz"))] =
      some (initInterpState,
        Except.error (ErrorK.UndefinedVar "Undefined variable zz.")) :=
  ⟨c10_interpret_discards_control_signals.1 10 Stmt.Break
      [Stmt.Print (Expr.Literal (Literal.num 1))] initInterpState
      initInterpState RuntimeControl.Break rfl,
   c10_interpret_discards_control_signals.2 10
      (Stmt.Expression (Expr.Variable (identTok "zz"))) [] initInterpState
      initInterpState (ErrorK.UndefinedVar "Undefined variable zz.") rfl⟩

end Lox
